import Mathlib

/-!
Shallow embedding of `resellerclub.py`, a thin HTTP API client plus
command-line frontend for a domain-registration/DNS service.

Python values flowing through the program (decoded JSON bodies, request
parameter values, docopt results) are modelled by the `Json` inductive.
HTTP transport is modelled by an oracle `Transport : Request → Json`
giving the decoded body for each request; every client operation returns
its result together with the list of requests it issued, in order.
Python exceptions are modelled with `Except PyErr`.
-/

/-- A decoded JSON / dynamic Python value. -/
inductive Json where
  | null : Json
  | bool : Bool → Json
  | num : Int → Json
  | str : String → Json
  | arr : List Json → Json
  | obj : List (String × Json) → Json

/-- Python exceptions raised by the embedded code: the domain error
`ResellerError` (carrying the service message), `KeyError` from a failed
subscript, `TypeError` from an unsupported operation, and `NameError`
from an unbound local. -/
inductive PyErr where
  | resellerError : Json → PyErr
  | keyError : String → PyErr
  | typeError : PyErr
  | nameError : PyErr

/-- Lookup in an association list, as Python `dict.get` (first match). -/
def dictGet (kvs : List (String × Json)) (k : String) : Option Json :=
  (kvs.find? (fun p => p.1 == k)).map Prod.snd

/-- Python truthiness of a value. -/
def truthy : Json → Bool
  | .null => false
  | .bool b => b
  | .num n => n != 0
  | .str s => s != ""
  | .arr l => !l.isEmpty
  | .obj l => !l.isEmpty

/-- Python `==` comparison of a value with a string literal: only the
equal string compares equal (no other Python type equals a `str`). -/
def pyEqStr (j : Json) (s : String) : Bool :=
  match j with
  | .str t => t == s
  | _ => false

/-- Python `a or b` on values. -/
def pyOr (a b : Json) : Json :=
  if truthy a then a else b

/-- Python `res[k]` on a value: lookup on a mapping (KeyError when the
key is absent), TypeError on anything else. -/
def pySubscript (j : Json) (k : String) : Except PyErr Json :=
  match j with
  | .obj kvs =>
    match dictGet kvs k with
    | some v => .ok v
    | none => .error (.keyError k)
  | _ => .error .typeError

/-- Whether a character-list occurs contiguously inside another. -/
def listContainsSub (needle : List Char) : List Char → Bool
  | [] => needle.isEmpty
  | c :: t => List.isPrefixOf needle (c :: t) || listContainsSub needle t

/-- Python `s in j`: key membership on mappings, element membership on
lists, substring test on strings, TypeError otherwise. -/
def pyContains (j : Json) (s : String) : Except PyErr Bool :=
  match j with
  | .obj kvs => .ok (kvs.any (fun p => p.1 == s))
  | .arr l => .ok (l.any (fun x => pyEqStr x s))
  | .str t => .ok (listContainsSub s.toList t.toList)
  | _ => .error .typeError

/-- Python `r or 0` applied to `main`'s return value (None or an int). -/
def pyOrZero (r : Option Int) : Int :=
  match r with
  | some n => if n = 0 then 0 else n
  | none => 0

/-- The 7-field `Address` namedtuple. Field values are dynamic. -/
structure Address where
  line_1 : Json
  line_2 : Json
  line_3 : Json
  city : Json
  state : Json
  country : Json
  zipcode : Json

/-- `Address.to_params`, keys exactly as written in the source (note the
`self-line-2` / `self-line-3` key names). -/
def Address.to_params (a : Address) : List (String × Json) :=
  [("address-line-1", a.line_1),
   ("self-line-2", a.line_2),
   ("self-line-3", a.line_3),
   ("city", a.city),
   ("state", a.state),
   ("country", a.country),
   ("zipcode", a.zipcode)]

/-- `check_error`: raise the domain error `ResellerError` carrying the
`message` entry when the body is a mapping whose `status` entry is truthy
and equals `"ERROR"`; otherwise return the body unchanged. -/
def check_error (res : Json) : Except PyErr Json :=
  match res with
  | .obj kvs =>
    match dictGet kvs "status" with
    | some status =>
      if truthy status && pyEqStr status "ERROR" then
        match dictGet kvs "message" with
        | some m => .error (.resellerError m)
        | none => .error (.keyError "message")
      else .ok res
    | none => .ok res
  | _ => .ok res

/-- An outbound HTTP request: method, path (`api_method` + ".json"), and
the operation-specific query parameters, in insertion order. -/
structure Request where
  httpMethod : String
  path : String
  params : List (String × Json)

/-- The HTTP layer: the decoded JSON body returned for each request. -/
def Transport : Type := Request → Json

/-- `ApiClient.request`: build the request for an api method and obtain
its decoded body from the transport. -/
def ApiClient.request (t : Transport) (httpMethod api_method : String)
    (params : List (String × Json)) : Json × Request :=
  let r : Request := ⟨httpMethod, api_method ++ ".json", params⟩
  (t r, r)

/-- `ApiClient.domains_get_details` (no error wrapping). -/
def domains_get_details (t : Transport) (name : Json) : Json × Request :=
  ApiClient.request t "GET" "domains/details-by-name"
    [("domain-name", name), ("options", .str "All")]

/-- `ApiClient.domains_register` (wrapped in `check_error`). -/
def domains_register (t : Transport)
    (domain years ns customer reg_contact admin_contact tech_contact
     billing_contact invoice_option purchase_privacy protect_privacy : Json) :
    Except PyErr Json × Request :=
  let (body, r) := ApiClient.request t "POST" "domains/register"
    [("domain-name", domain),
     ("years", years),
     ("ns", ns),
     ("customer-id", customer),
     ("reg-contact-id", reg_contact),
     ("admin-contact-id", admin_contact),
     ("tech-contact-id", tech_contact),
     ("billing-contact-id", billing_contact),
     ("invoice-option", invoice_option),
     ("purchase-privacy", purchase_privacy),
     ("protect-privacy", protect_privacy)]
  (check_error body, r)

/-- `ApiClient.domains_default_ns` (wrapped in `check_error`). -/
def domains_default_ns (t : Transport) (customer_id : Json) :
    Except PyErr Json × Request :=
  let (body, r) := ApiClient.request t "GET" "domains/customer-default-ns"
    [("customer-id", customer_id)]
  (check_error body, r)

/-- `ApiClient.contacts_add` (wrapped in `check_error`); the address
parameters are appended by `params.update(address.to_params())`. -/
def contacts_add (t : Transport)
    (type name company email : Json) (address : Address)
    (phone_cc phone customer_id : Json) : Except PyErr Json × Request :=
  let params :=
    [("type", type),
     ("name", name),
     ("company", company),
     ("email", email),
     ("phone-cc", phone_cc),
     ("phone", phone),
     ("customer-id", customer_id)] ++ address.to_params
  let (body, r) := ApiClient.request t "POST" "contacts/add" params
  (check_error body, r)

/-- `ApiClient.customers_add` (wrapped in `check_error`). -/
def customers_add (t : Transport)
    (username password name company : Json) (address : Address)
    (phone_cc phone lang_pref : Json) : Except PyErr Json × Request :=
  let params :=
    [("username", username),
     ("passwd", password),
     ("name", name),
     ("company", company),
     ("phone-cc", phone_cc),
     ("phone", phone),
     ("lang-pref", lang_pref)] ++ address.to_params
  let (body, r) := ApiClient.request t "POST" "customers/signup" params
  (check_error body, r)

/-- `ApiClient.domains_check_availability` (wrapped in `check_error`). -/
def domains_check_availability (t : Transport)
    (domain tlds suggest_alternative : Json) : Except PyErr Json × Request :=
  let (body, r) := ApiClient.request t "GET" "domains/available"
    [("domain-name", domain),
     ("tlds", tlds),
     ("suggest-alternative", suggest_alternative)]
  (check_error body, r)

/-- `ApiClient.dns_activate`: details lookup first, then the activation
call with the `entityid` of the first body as `order-id`; no wrapping. -/
def dns_activate (t : Transport) (domain_name : Json) :
    Except PyErr Json × List Request :=
  let (details, r1) := domains_get_details t domain_name
  match pySubscript details "entityid" with
  | .error e => (.error e, [r1])
  | .ok order_id =>
    let (body, r2) := ApiClient.request t "POST" "dns/activate"
      [("order-id", order_id)]
    (.ok body, [r1, r2])

/-- `ApiClient.dns_search` (no error wrapping). -/
def dns_search (t : Transport) (domain type no_of_records host : Json) :
    Json × Request :=
  ApiClient.request t "GET" "dns/manage/search-records"
    [("domain-name", domain),
     ("type", type),
     ("no-of-records", no_of_records),
     ("page-no", .num 1),
     ("host", host)]

/-- `ApiClient.dns_add_record` (no error wrapping); `ttl or None`. -/
def dns_add_record (t : Transport) (record_type : String)
    (domain value host ttl : Json) : Json × Request :=
  ApiClient.request t "POST" ("dns/manage/add-" ++ record_type ++ "-record")
    [("domain-name", domain),
     ("value", value),
     ("host", host),
     ("ttl", pyOr ttl .null)]

/-- `ApiClient.dns_delete_record` (no error wrapping). -/
def dns_delete_record (t : Transport) (record_type : String)
    (domain value host : Json) : Json × Request :=
  ApiClient.request t "POST" ("dns/manage/delete-" ++ record_type ++ "-record")
    [("domain-name", domain),
     ("value", value),
     ("host", host)]

/-- Generated method `dns_add_ipv4_record`. -/
def dns_add_ipv4_record (t : Transport) (domain value host ttl : Json) :
    Json × Request :=
  dns_add_record t "ipv4" domain value host ttl

/-- Generated method `dns_add_ipv6_record`. -/
def dns_add_ipv6_record (t : Transport) (domain value host ttl : Json) :
    Json × Request :=
  dns_add_record t "ipv6" domain value host ttl

/-- Generated method `dns_add_cname_record`. -/
def dns_add_cname_record (t : Transport) (domain value host ttl : Json) :
    Json × Request :=
  dns_add_record t "cname" domain value host ttl

/-- Generated method `dns_delete_ipv4_record`. -/
def dns_delete_ipv4_record (t : Transport) (domain value host : Json) :
    Json × Request :=
  dns_delete_record t "ipv4" domain value host

/-- Generated method `dns_delete_ipv6_record`. -/
def dns_delete_ipv6_record (t : Transport) (domain value host : Json) :
    Json × Request :=
  dns_delete_record t "ipv6" domain value host

/-- Generated method `dns_delete_cname_record`. -/
def dns_delete_cname_record (t : Transport) (domain value host : Json) :
    Json × Request :=
  dns_delete_record t "cname" domain value host

/-- The source constant `MAX_RECORDS = 50`. -/
def MAX_RECORDS : Int := 50

/-- The docopt result for the four command forms: which command matched
and the positional and option values (`ttl` is `null` when `--ttl` is
absent, a string when given). -/
structure Args where
  activate : Bool
  add : Bool
  delete : Bool
  list : Bool
  domain : String
  recordType : String
  name : String
  value : String
  ttl : Json

/-- The record-type dictionary lookup in `cmd_domain` (`KeyError`, i.e.
`none`, for anything outside A / AAAA / CNAME). -/
def part_for_record (rt : String) : Option String :=
  if rt = "A" then some "ipv4"
  else if rt = "AAAA" then some "ipv6"
  else if rt = "CNAME" then some "cname"
  else none

/-- `cmd_domain`: resolve the record type to its internal alias (on
failure print a message and return no result), then dispatch to the
per-type add / delete method or to the search call. The result is the
optional command result, the requests issued, and the lines printed. -/
def cmd_domain (t : Transport) (args : Args) :
    Except PyErr (Option Json) × List Request × List String :=
  match part_for_record args.recordType with
  | none =>
    (.ok none, [], ["Not a supported record type: " ++ args.recordType])
  | some part =>
    if args.add then
      let (body, r) := dns_add_record t part (.str args.domain)
        (.str args.value) (.str args.name) args.ttl
      (.ok (some body), [r], [])
    else if args.delete then
      let (body, r) := dns_delete_record t part (.str args.domain)
        (.str args.value) (.str args.name)
      (.ok (some body), [r], [])
    else if args.list then
      let (body, r) := dns_search t (.str args.domain)
        (.str args.recordType) (.num MAX_RECORDS) (.str args.name)
      (.ok (some body), [r], [])
    else
      (.error .nameError, [], [])

/-- `cmd_activate`. -/
def cmd_activate (t : Transport) (args : Args) :
    Except PyErr Json × List Request :=
  dns_activate t (.str args.domain)

/-- What a run of `main` produced: its return value (None or 1), the
result printed as JSON (if any), the diagnostic lines printed, and the
requests issued. -/
structure MainResult where
  ret : Option Int
  printed : Option Json
  messages : List String
  trace : List Request

/-- The tail of `main` after a command produced its result: return on a
`None` result, otherwise print it and return 1 when the Python test
`"error" in result` succeeds. -/
def finish (x : Except PyErr (Option Json) × List Request × List String) :
    Except PyErr MainResult :=
  match x with
  | (.error e, _, _) => .error e
  | (.ok none, tr, msgs) => .ok ⟨none, none, msgs, tr⟩
  | (.ok (some result), tr, msgs) =>
    match pyContains result "error" with
    | .error e => .error e
    | .ok b => .ok ⟨if b then some 1 else none, some result, msgs, tr⟩

namespace Frontend

/-- `main`: dispatch to `cmd_activate` or `cmd_domain`, then print and
compute the return value. -/
def main (t : Transport) (args : Args) : Except PyErr MainResult :=
  if args.activate then
    let (r, tr) := cmd_activate t args
    finish (r.map some, tr, [])
  else
    finish (cmd_domain t args)

/-- `run`: `sys.exit(main(sys.argv) or 0)`; an uncaught exception makes
the interpreter exit with status 1. -/
def run (t : Transport) (args : Args) : Int :=
  match main t args with
  | .ok m => pyOrZero m.ret
  | .error _ => 1

end Frontend

/-- The details-lookup request issued by `domains_get_details`. -/
def detailsRequest (name : Json) : Request :=
  ⟨"GET", "domains/details-by-name.json",
   [("domain-name", name), ("options", .str "All")]⟩

/-- The activation request issued by `dns_activate` for an order id. -/
def activateRequest (order_id : Json) : Request :=
  ⟨"POST", "dns/activate.json", [("order-id", order_id)]⟩

/-- Spec-side reading of the exit rule of the frontend: whether the top
level of the printed result is a mapping containing an `error` key (a
non-mapping has no keys at all). -/
def topLevelHasErrorKey (j : Json) : Bool :=
  match j with
  | .obj kvs => kvs.any (fun p => p.1 == "error")
  | _ => false

/-- A transport whose every response is the service error body used to
exercise the wrapped operations. -/
def c1T : Transport :=
  fun _ => .obj [("status", .str "ERROR"), ("message", .str "domain not found")]

/-- A transport whose every response is an error body that also carries
an `entityid`, so the composite activate operation can proceed. -/
def c2T : Transport :=
  fun _ => .obj [("entityid", .num 42), ("status", .str "ERROR"),
                 ("message", .str "x")]

/-- The body returned by `c2T`. -/
def c2Body : Json :=
  .obj [("entityid", .num 42), ("status", .str "ERROR"), ("message", .str "x")]

/-- A transport answering every request with a details body holding an
`entityid`. -/
def c3T : Transport := fun _ => .obj [("entityid", .num 42)]

/-- A transport answering every request with the list `["error"]`. -/
def c4T : Transport := fun _ => .arr [.str "error"]

/-- The docopt result of `dns example.org list A www`. -/
def c4Args : Args := ⟨false, false, false, true, "example.org", "A", "www", "", .null⟩

/-- A transport answering every request with a mapping that has an
`error` key. -/
def c4WT : Transport := fun _ => .obj [("error", .str "boom")]

/-- A transport that is never reached. -/
def c5T : Transport := fun _ => Json.null

/-- The docopt result of `dns example.org add TXT www 8.8.8.8`. -/
def c5Args : Args :=
  ⟨false, true, false, false, "example.org", "TXT", "www", "8.8.8.8", .null⟩

/-- A transport with an arbitrary fixed response body. -/
def c8T : Transport := fun _ => Json.null

/-- A transport with an arbitrary fixed response body. -/
def c9T : Transport := fun _ => Json.bool true

/-- A transport answering every request with a non-error status body. -/
def c10T : Transport := fun _ => .obj [("status", .str "SUCCESS")]

lemma check_error_obj_error {kvs : List (String × Json)} {m : Json}
    (hs : dictGet kvs "status" = some (.str "ERROR"))
    (hm : dictGet kvs "message" = some m) :
    check_error (.obj kvs) = .error (.resellerError m) := by
  simp [check_error, hs, hm, truthy, pyEqStr]

lemma finish_printed {x : Except PyErr (Option Json) × List Request × List String}
    {m : MainResult} {j : Json}
    (hf : finish x = .ok m) (hp : m.printed = some j) :
    ∃ b, pyContains j "error" = .ok b ∧ m.ret = (if b then some 1 else none) := by
  obtain ⟨r, tr, msgs⟩ := x
  match r with
  | .error e => simp [finish] at hf
  | .ok none =>
    simp [finish] at hf
    rw [← hf] at hp
    simp at hp
  | .ok (some res) =>
    rw [finish] at hf
    cases hpc : pyContains res "error" with
    | error e => rw [hpc] at hf; simp at hf
    | ok b =>
      rw [hpc] at hf
      simp at hf
      rw [← hf] at hp ⊢
      simp at hp
      subst hp
      exact ⟨b, hpc, rfl⟩

lemma main_printed {t : Transport} {args : Args} {m : MainResult} {j : Json}
    (hm : Frontend.main t args = .ok m) (hp : m.printed = some j) :
    ∃ b, pyContains j "error" = .ok b ∧ m.ret = (if b then some 1 else none) := by
  unfold Frontend.main at hm
  split at hm
  · exact finish_printed hm hp
  · exact finish_printed hm hp

/-- C1: every wrapped operation (domains_register, domains_default_ns,
contacts_add, customers_add, domains_check_availability), on a decoded
response body that is a mapping with status "ERROR" and a message entry
m, raises the domain error ResellerError carrying exactly m. -/
theorem c1_wrapped_ops_raise_reseller_error
    (t : Transport) (kvs : List (String × Json)) (m : Json)
    (ht : ∀ r, t r = .obj kvs)
    (hs : dictGet kvs "status" = some (.str "ERROR"))
    (hm : dictGet kvs "message" = some m)
    (domain years ns customer rc ac tc bc io pp pv cid
     ctype cnm ccompany cemail pcc phone ccid
     username password unm ucompany lang dom tlds sa : Json)
    (addr : Address) :
    (domains_register t domain years ns customer rc ac tc bc io pp pv).1
        = .error (.resellerError m) ∧
    (domains_default_ns t cid).1 = .error (.resellerError m) ∧
    (contacts_add t ctype cnm ccompany cemail addr pcc phone ccid).1
        = .error (.resellerError m) ∧
    (customers_add t username password unm ucompany addr pcc phone lang).1
        = .error (.resellerError m) ∧
    (domains_check_availability t dom tlds sa).1 = .error (.resellerError m) := by
  refine ⟨?_, ?_, ?_, ?_, ?_⟩ <;>
    simp [domains_register, domains_default_ns, contacts_add, customers_add,
      domains_check_availability, ApiClient.request, ht,
      check_error_obj_error hs hm]

/-- C1 witness: the body with status "ERROR" and message "domain not
found" makes each of the five wrapped operations raise ResellerError
with exactly that message. -/
theorem c1_wrapped_ops_raise_reseller_error_witness :
    (domains_register c1T (.str "example.org") (.num 1) (.arr [.str "ns1"])
        (.num 2) (.num 3) (.num 4) (.num 5) (.num 6) (.str "NoInvoice")
        (.bool true) (.bool false)).1
      = .error (.resellerError (.str "domain not found")) ∧
    (domains_default_ns c1T (.num 7)).1
      = .error (.resellerError (.str "domain not found")) ∧
    (contacts_add c1T (.str "Contact") (.str "Jo") (.str "ACME")
        (.str "jo@acme.test") ⟨.null, .null, .null, .null, .null, .null, .null⟩
        (.str "49") (.str "123") (.num 7)).1
      = .error (.resellerError (.str "domain not found")) ∧
    (customers_add c1T (.str "jo@acme.test") (.str "pw") (.str "Jo")
        (.str "ACME") ⟨.null, .null, .null, .null, .null, .null, .null⟩
        (.str "49") (.str "123") (.str "en")).1
      = .error (.resellerError (.str "domain not found")) ∧
    (domains_check_availability c1T (.str "example") (.arr [.str "org"])
        (.bool false)).1
      = .error (.resellerError (.str "domain not found")) :=
  c1_wrapped_ops_raise_reseller_error c1T
    [("status", .str "ERROR"), ("message", .str "domain not found")]
    (.str "domain not found") (fun _ => rfl) rfl rfl
    (.str "example.org") (.num 1) (.arr [.str "ns1"]) (.num 2) (.num 3)
    (.num 4) (.num 5) (.num 6) (.str "NoInvoice") (.bool true) (.bool false)
    (.num 7) (.str "Contact") (.str "Jo") (.str "ACME") (.str "jo@acme.test")
    (.str "49") (.str "123") (.num 7) (.str "jo@acme.test") (.str "pw")
    (.str "Jo") (.str "ACME") (.str "en") (.str "example") (.arr [.str "org"])
    (.bool false) ⟨.null, .null, .null, .null, .null, .null, .null⟩

/-- C2: the unwrapped operations (domains_get_details, dns_search,
dns_add_record, dns_delete_record) return the raw decoded body of their
request unchanged for every response, in particular for an error-status
mapping; dns_activate returns the raw body of its activation call
unchanged (given the details body carries an entityid) and never raises
the domain error ResellerError. -/
theorem c2_unwrapped_ops_return_raw_body
    (t : Transport) (name dom ty nrec host dom2 v1 hj ttl dom3 v2 hj2 : Json)
    (rts1 rts2 : String)
    (kvs : List (String × Json)) (oid : Json)
    (ha : t (detailsRequest name) = .obj kvs)
    (hb : dictGet kvs "entityid" = some oid) :
    (domains_get_details t name).1 = t (domains_get_details t name).2 ∧
    (dns_search t dom ty nrec host).1 = t (dns_search t dom ty nrec host).2 ∧
    (dns_add_record t rts1 dom2 v1 hj ttl).1
        = t (dns_add_record t rts1 dom2 v1 hj ttl).2 ∧
    (dns_delete_record t rts2 dom3 v2 hj2).1
        = t (dns_delete_record t rts2 dom3 v2 hj2).2 ∧
    (dns_activate t name).1 = .ok (t (activateRequest oid)) ∧
    (∀ e, (dns_activate t name).1 ≠ .error (.resellerError e)) := by
  have hsub : pySubscript (t (detailsRequest name)) "entityid" = .ok oid := by
    rw [ha]; simp [pySubscript, hb]
  have hact : (dns_activate t name).1 = .ok (t (activateRequest oid)) := by
    simp [dns_activate, domains_get_details, ApiClient.request, detailsRequest,
      activateRequest] at hsub ⊢
    rw [hsub]
  refine ⟨rfl, rfl, rfl, rfl, hact, ?_⟩
  intro e h
  rw [hact] at h
  exact Except.noConfusion h

/-- C2 witness: a transport always answering with an error-status body
(which also carries an entityid) has that body surface unchanged from
every unwrapped operation, with no error raised. -/
theorem c2_unwrapped_ops_return_raw_body_witness :
    (domains_get_details c2T (.str "example.org")).1 = c2Body ∧
    (dns_search c2T (.str "example.org") (.str "A") (.num 50) (.str "www")).1
        = c2Body ∧
    (dns_add_record c2T "ipv4" (.str "example.org") (.str "8.8.8.8")
        (.str "www") .null).1 = c2Body ∧
    (dns_delete_record c2T "ipv4" (.str "example.org") (.str "8.8.8.8")
        (.str "www")).1 = c2Body ∧
    (dns_activate c2T (.str "example.org")).1 = .ok c2Body := by
  have h := c2_unwrapped_ops_return_raw_body c2T (.str "example.org")
    (.str "example.org") (.str "A") (.num 50) (.str "www")
    (.str "example.org") (.str "8.8.8.8") (.str "www") .null
    (.str "example.org") (.str "8.8.8.8") (.str "www") "ipv4" "ipv4"
    [("entityid", .num 42), ("status", .str "ERROR"), ("message", .str "x")]
    (.num 42) rfl rfl
  exact ⟨h.1, h.2.1, h.2.2.1, h.2.2.2.1, h.2.2.2.2.1⟩

/-- C3: dns_activate issues exactly two requests in order: the GET
details lookup keyed by the domain name, then the POST activation whose
order-id parameter is the entityid of the first response; the lookup is
always the first request issued. -/
theorem c3_activate_two_calls_in_order
    (t : Transport) (d : Json) (kvs : List (String × Json)) (oid : Json)
    (ha : t (detailsRequest d) = .obj kvs)
    (hb : dictGet kvs "entityid" = some oid) :
    (dns_activate t d).2 = [detailsRequest d, activateRequest oid] ∧
    (detailsRequest d).httpMethod = "GET" ∧
    dictGet (detailsRequest d).params "domain-name" = some d ∧
    (activateRequest oid).httpMethod = "POST" ∧
    dictGet (activateRequest oid).params "order-id" = some oid ∧
    (dns_activate t d).2.head? = some (detailsRequest d) := by
  have hsub : pySubscript (t (detailsRequest d)) "entityid" = .ok oid := by
    rw [ha]; simp [pySubscript, hb]
  have htr : (dns_activate t d).2 = [detailsRequest d, activateRequest oid] := by
    simp [dns_activate, domains_get_details, ApiClient.request, detailsRequest,
      activateRequest] at hsub ⊢
    rw [hsub]
  refine ⟨htr, rfl, by simp [detailsRequest, dictGet], rfl,
    by simp [activateRequest, dictGet], ?_⟩
  rw [htr]; rfl

/-- C3 witness: against a transport whose details body has entityid 42,
activating example.org issues the details lookup and then the activation
with order-id 42. -/
theorem c3_activate_two_calls_in_order_witness :
    (dns_activate c3T (.str "example.org")).2
      = [detailsRequest (.str "example.org"), activateRequest (.num 42)] ∧
    (detailsRequest (.str "example.org")).httpMethod = "GET" ∧
    dictGet (detailsRequest (.str "example.org")).params "domain-name"
      = some (.str "example.org") ∧
    (activateRequest (.num 42)).httpMethod = "POST" ∧
    dictGet (activateRequest (.num 42)).params "order-id" = some (.num 42) ∧
    (dns_activate c3T (.str "example.org")).2.head?
      = some (detailsRequest (.str "example.org")) :=
  c3_activate_two_calls_in_order c3T (.str "example.org")
    [("entityid", .num 42)] (.num 42) rfl rfl

/-- C4 (counterexample): the claim says the exit status is 0 whenever
the printed result has no top-level error key. The frontend applies the
Python membership test to the whole result, so the printed list
`["error"]` — which is not a mapping and has no keys at all — still
yields exit status 1. -/
theorem c4_exit_code_counterexample :
    Frontend.main c4T c4Args
      = .ok ⟨some 1, some (.arr [.str "error"]), [],
          [⟨"GET", "dns/manage/search-records.json",
            [("domain-name", .str "example.org"), ("type", .str "A"),
             ("no-of-records", .num 50), ("page-no", .num 1),
             ("host", .str "www")]⟩]⟩ ∧
    topLevelHasErrorKey (.arr [.str "error"]) = false ∧
    Frontend.run c4T c4Args = 1 :=
  ⟨rfl, rfl, rfl⟩

/-- C4 (amended): for every result obtained and printed by the frontend
whose top level is a mapping, the process exit status is 1 when it
contains an error key and 0 when it does not. -/
theorem c4_exit_code_for_mapping_results
    (t : Transport) (args : Args) (m : MainResult) (kvs : List (String × Json))
    (hm : Frontend.main t args = .ok m)
    (hp : m.printed = some (.obj kvs)) :
    Frontend.run t args = if topLevelHasErrorKey (.obj kvs) then 1 else 0 := by
  obtain ⟨b, hpc, hret⟩ := main_printed hm hp
  have hb : topLevelHasErrorKey (.obj kvs) = b := by
    simp [pyContains] at hpc
    simp [topLevelHasErrorKey, hpc]
  unfold Frontend.run
  rw [hm]
  show pyOrZero m.ret = _
  rw [hret, hb]
  cases b <;> simp [pyOrZero]

/-- C4 witness: a printed mapping result with an error key makes the
process exit with status 1. -/
theorem c4_exit_code_for_mapping_results_witness :
    Frontend.run c4WT c4Args
      = if topLevelHasErrorKey (.obj [("error", .str "boom")]) then 1 else 0 :=
  c4_exit_code_for_mapping_results c4WT c4Args
    ⟨some 1, some (.obj [("error", .str "boom")]), [],
     [⟨"GET", "dns/manage/search-records.json",
       [("domain-name", .str "example.org"), ("type", .str "A"),
        ("no-of-records", .num 50), ("page-no", .num 1),
        ("host", .str "www")]⟩]⟩
    [("error", .str "boom")] rfl rfl

/-- C5: for a record type outside A / AAAA / CNAME given to the add,
delete or list command, the frontend prints the unsupported-type
message, issues no request, produces no result, and the process exits
with status 0. -/
theorem c5_unsupported_record_type_no_call_exit_zero
    (t : Transport) (args : Args)
    (hact : args.activate = false)
    (h1 : args.recordType ≠ "A")
    (h2 : args.recordType ≠ "AAAA")
    (h3 : args.recordType ≠ "CNAME")
    (_hcmd : args.add = true ∨ args.delete = true ∨ args.list = true) :
    Frontend.main t args
      = .ok ⟨none, none,
          ["Not a supported record type: " ++ args.recordType], []⟩ ∧
    Frontend.run t args = 0 := by
  have hpr : part_for_record args.recordType = none := by
    simp [part_for_record, h1, h2, h3]
  have hmain : Frontend.main t args
      = .ok ⟨none, none,
          ["Not a supported record type: " ++ args.recordType], []⟩ := by
    simp [Frontend.main, hact, cmd_domain, hpr, finish]
  refine ⟨hmain, ?_⟩
  unfold Frontend.run
  rw [hmain]
  rfl

/-- C5 witness: the add command with record type TXT prints the message,
issues no request, yields no result, and exits with status 0. -/
theorem c5_unsupported_record_type_no_call_exit_zero_witness :
    Frontend.main c5T c5Args
      = .ok ⟨none, none, ["Not a supported record type: TXT"], []⟩ ∧
    Frontend.run c5T c5Args = 0 :=
  c5_unsupported_record_type_no_call_exit_zero c5T c5Args rfl
    (by decide) (by decide) (by decide) (Or.inl rfl)

/-- C6: the add and delete commands route each supported user-facing
record type to the path holding its internal alias: A to ipv4, AAAA to
ipv6, CNAME to cname, under dns/manage/add-...-record and
dns/manage/delete-...-record. -/
theorem c6_record_type_alias_dispatch (t : Transport) (d n v : String)
    (ttl : Json) :
    ((cmd_domain t ⟨false, true, false, false, d, "A", n, v, ttl⟩).2.1).map
        Request.path = ["dns/manage/add-ipv4-record.json"] ∧
    ((cmd_domain t ⟨false, true, false, false, d, "AAAA", n, v, ttl⟩).2.1).map
        Request.path = ["dns/manage/add-ipv6-record.json"] ∧
    ((cmd_domain t ⟨false, true, false, false, d, "CNAME", n, v, ttl⟩).2.1).map
        Request.path = ["dns/manage/add-cname-record.json"] ∧
    ((cmd_domain t ⟨false, false, true, false, d, "A", n, v, ttl⟩).2.1).map
        Request.path = ["dns/manage/delete-ipv4-record.json"] ∧
    ((cmd_domain t ⟨false, false, true, false, d, "AAAA", n, v, ttl⟩).2.1).map
        Request.path = ["dns/manage/delete-ipv6-record.json"] ∧
    ((cmd_domain t ⟨false, false, true, false, d, "CNAME", n, v, ttl⟩).2.1).map
        Request.path = ["dns/manage/delete-cname-record.json"] :=
  ⟨rfl, rfl, rfl, rfl, rfl, rfl⟩

/-- C7: an Address built from 7 field values serializes to exactly the
seven request parameters of the source — address-line-1, self-line-2,
self-line-3, city, state, country, zipcode — each carrying its field
value unchanged. -/
theorem c7_address_to_params_round_trip (l1 l2 l3 c s co z : Json) :
    dictGet (Address.to_params ⟨l1, l2, l3, c, s, co, z⟩) "city" = some c ∧
    dictGet (Address.to_params ⟨l1, l2, l3, c, s, co, z⟩) "state" = some s ∧
    dictGet (Address.to_params ⟨l1, l2, l3, c, s, co, z⟩) "country" = some co ∧
    dictGet (Address.to_params ⟨l1, l2, l3, c, s, co, z⟩) "zipcode" = some z ∧
    dictGet (Address.to_params ⟨l1, l2, l3, c, s, co, z⟩) "address-line-1"
      = some l1 ∧
    dictGet (Address.to_params ⟨l1, l2, l3, c, s, co, z⟩) "self-line-2"
      = some l2 ∧
    dictGet (Address.to_params ⟨l1, l2, l3, c, s, co, z⟩) "self-line-3"
      = some l3 ∧
    Address.to_params ⟨l1, l2, l3, c, s, co, z⟩
      = [("address-line-1", l1), ("self-line-2", l2), ("self-line-3", l3),
         ("city", c), ("state", s), ("country", co), ("zipcode", z)] :=
  ⟨rfl, rfl, rfl, rfl, rfl, rfl, rfl, rfl⟩

/-- C8: the add command with ttl 300 sends ttl=300 in the request
parameters, and with no ttl given it sends the ttl parameter as null. -/
theorem c8_ttl_parameter (t : Transport) (d n v rt part : String)
    (hrt : part_for_record rt = some part) :
    ((cmd_domain t ⟨false, true, false, false, d, rt, n, v, .str "300"⟩).2.1).map
        (fun r => dictGet r.params "ttl") = [some (.str "300")] ∧
    ((cmd_domain t ⟨false, true, false, false, d, rt, n, v, .null⟩).2.1).map
        (fun r => dictGet r.params "ttl") = [some .null] := by
  constructor <;>
    simp [cmd_domain, hrt, dns_add_record, ApiClient.request, pyOr, truthy,
      dictGet]

/-- C8 witness: adding an A record with ttl 300 sends ttl=300; without
the flag the ttl parameter is null. -/
theorem c8_ttl_parameter_witness :
    ((cmd_domain c8T
        ⟨false, true, false, false, "example.org", "A", "www", "8.8.8.8",
         .str "300"⟩).2.1).map (fun r => dictGet r.params "ttl")
      = [some (.str "300")] ∧
    ((cmd_domain c8T
        ⟨false, true, false, false, "example.org", "A", "www", "8.8.8.8",
         .null⟩).2.1).map (fun r => dictGet r.params "ttl")
      = [some .null] :=
  c8_ttl_parameter c8T "example.org" "www" "8.8.8.8" "A" "ipv4" rfl

/-- C9: the list command issues a single search request that always
carries no-of-records=50 and page-no=1, and whose type parameter is the
raw user-facing record-type string. -/
theorem c9_list_search_parameters (t : Transport) (d n v : String)
    (ttl : Json) (rt part : String)
    (hrt : part_for_record rt = some part) :
    (cmd_domain t ⟨false, false, false, true, d, rt, n, v, ttl⟩).2.1
      = [⟨"GET", "dns/manage/search-records.json",
          [("domain-name", .str d), ("type", .str rt),
           ("no-of-records", .num 50), ("page-no", .num 1),
           ("host", .str n)]⟩] := by
  simp [cmd_domain, hrt, dns_search, ApiClient.request, MAX_RECORDS]

/-- C9 witness: listing AAAA records requests no-of-records=50,
page-no=1, and type "AAAA" rather than the alias ipv6. -/
theorem c9_list_search_parameters_witness :
    (cmd_domain c9T
        ⟨false, false, false, true, "example.org", "AAAA", "www", "",
         .null⟩).2.1
      = [⟨"GET", "dns/manage/search-records.json",
          [("domain-name", .str "example.org"), ("type", .str "AAAA"),
           ("no-of-records", .num 50), ("page-no", .num 1),
           ("host", .str "www")]⟩] :=
  c9_list_search_parameters c9T "example.org" "www" "" .null "AAAA" "ipv6" rfl

/-- C10: check_error is the identity on every non-error input — any
value that is not a mapping, and any mapping whose status entry is
absent, falsy, or not equal to "ERROR", comes back unchanged with
nothing raised — and a wrapped operation passes such a body through
untouched. -/
theorem c10_check_error_identity_on_non_error
    (t : Transport) (cid : Json) (j : Json)
    (kvs : List (String × Json)) (st : Json) :
    ((∀ l, j ≠ .obj l) → check_error j = .ok j) ∧
    (dictGet kvs "status" = none → check_error (.obj kvs) = .ok (.obj kvs)) ∧
    (dictGet kvs "status" = some st → truthy st = false →
      check_error (.obj kvs) = .ok (.obj kvs)) ∧
    (dictGet kvs "status" = some st → pyEqStr st "ERROR" = false →
      check_error (.obj kvs) = .ok (.obj kvs)) ∧
    ((∀ r, t r = j) → check_error j = .ok j →
      (domains_default_ns t cid).1 = .ok j) := by
  refine ⟨?_, ?_, ?_, ?_, ?_⟩
  · intro h
    cases j with
    | obj l => exact absurd rfl (h l)
    | null => rfl
    | bool b => rfl
    | num n => rfl
    | str s => rfl
    | arr l => rfl
  · intro h; simp [check_error, h]
  · intro h1 h2; simp [check_error, h1, h2]
  · intro h1 h2; simp [check_error, h1, h2]
  · intro ht hok
    simp [domains_default_ns, ApiClient.request, ht, hok]

/-- C10 witness: a plain string, a mapping without status, a mapping
with falsy status, and a mapping with status SUCCESS all pass through
check_error unchanged, and domains_default_ns returns the SUCCESS body
as is. -/
theorem c10_check_error_identity_on_non_error_witness :
    check_error (.str "OK") = .ok (.str "OK") ∧
    check_error (.obj [("code", .num 200)]) = .ok (.obj [("code", .num 200)]) ∧
    check_error (.obj [("status", .str "")]) = .ok (.obj [("status", .str "")]) ∧
    check_error (.obj [("status", .str "SUCCESS")])
      = .ok (.obj [("status", .str "SUCCESS")]) ∧
    (domains_default_ns c10T (.num 7)).1
      = .ok (.obj [("status", .str "SUCCESS")]) :=
  ⟨(c10_check_error_identity_on_non_error c10T (.num 7) (.str "OK") [] .null).1
     (fun _ h => Json.noConfusion h),
   (c10_check_error_identity_on_non_error c10T (.num 7) .null
      [("code", .num 200)] .null).2.1 rfl,
   (c10_check_error_identity_on_non_error c10T (.num 7) .null
      [("status", .str "")] (.str "")).2.2.1 rfl rfl,
   (c10_check_error_identity_on_non_error c10T (.num 7) .null
      [("status", .str "SUCCESS")] (.str "SUCCESS")).2.2.2.1 rfl (by decide),
   (c10_check_error_identity_on_non_error c10T (.num 7)
      (.obj [("status", .str "SUCCESS")]) [] .null).2.2.2.2
     (fun _ => rfl) rfl⟩
